import Mathlib

/-!
Shallow embedding of `src/amm/create_amm.py` (Algo_AMM client-side
orchestrator) and proofs about it.

Modelling conventions:
* The algod client is represented by the data that drives control flow:
  the stream of `pending_transaction_info` responses is a function
  `Nat → PendingTxn` (argument = 0-based index of the poll).  Calls whose
  results do not influence control flow (`client.status()`,
  `client.status_after_block`, `suggested_params`, the network sends) are
  elided; they only block, they never change what the code computes.
* Python dict access `d["k"]` on a possibly-missing key is modelled with
  `Option`; `d.get("k", 0)` is `Option.getD`.  A raised exception is an
  explicit error constructor.
* Machine integers are `Nat`/`Int`; `int.to_bytes(8, "big")` is modelled
  with an explicit overflow check (Python raises `OverflowError` when the
  value does not fit).
* SDK primitives external to this repository (`decode_address`,
  `get_application_address`, base64 decoding, the group-id hash) are taken
  as parameters: the code under verification only moves their results
  around, it never inspects them.
-/

/-- The bytes of an ASCII string literal, as used for Python byte literals
like `b"setup"`. -/
def strBytes (s : String) : List Nat :=
  s.data.map Char.toNat

/-- One `pending_transaction_info` response: the fields of the node's
pending-transaction record that `create_amm.py` reads.
`confirmedRound = none` models an absent "confirmed-round" key
(the code reads it with `.get("confirmed-round", 0)`).
`applicationIndex` models the "application-index" entry:
`none` = key absent, `some none` = key present with value `None`,
`some (some n)` = key present with integer value `n`. -/
structure PendingTxn where
  confirmedRound : Option Nat
  poolError : String
  applicationIndex : Option (Option Int)
  deriving Repr, DecidableEq

/-- Outcome of `waitForTransaction`.  Each constructor carries `polls`,
the number of `pending_transaction_info` calls that were made. -/
inductive WaitResult where
  | confirmed (txn : PendingTxn) (polls : Nat)
  | poolError (msg : String) (polls : Nat)
  | timedOut (msg : String) (polls : Nat)
  deriving Repr, DecidableEq

/-- The message of the timeout exception raised at line 42-44:
`"Transaction {} not confirmed after {} rounds".format(txID, timeout)`. -/
def timeoutMsg (txID : String) (timeout : Int) : String :=
  "Transaction " ++ txID ++ " not confirmed after " ++ toString timeout ++ " rounds"

/-- The message of the pool-error exception raised at line 36:
`"Pool error: {}".format(pending_txn["pool-error"])`. -/
def poolErrorMsg (err : String) : String :=
  "Pool error: " ++ err

/-- The `while lastRound < startRound + timeout` loop of
`waitForTransaction` (lines 29-44).  `lastRound` starts at `startRound`
and increases by exactly 1 per iteration, so the loop runs for
`max timeout 0` iterations unless it returns or raises first; `fuel` is
the number of remaining iterations and `polls` the number of
`pending_transaction_info` calls made so far (also the 0-based index of
the next poll). -/
def waitLoop (pti : Nat → PendingTxn) (txID : String) (timeout : Int) :
    Nat → Nat → WaitResult
  | 0, polls => WaitResult.timedOut (timeoutMsg txID timeout) polls
  | fuel + 1, polls =>
    let pending_txn := pti polls
    if (pending_txn.confirmedRound.getD 0) > 0 then
      WaitResult.confirmed pending_txn (polls + 1)
    else if pending_txn.poolError ≠ "" then
      WaitResult.poolError (poolErrorMsg pending_txn.poolError) (polls + 1)
    else
      waitLoop pti txID timeout fuel (polls + 1)

/-- `waitForTransaction(client, txID, timeout)` (lines 22-44). -/
def waitForTransaction (pti : Nat → PendingTxn) (txID : String)
    (timeout : Int) : WaitResult :=
  waitLoop pti txID timeout timeout.toNat 0

/-- `waitForTransaction(client, txID)` with the default `timeout = 10`. -/
def waitForTransactionDefault (pti : Nat → PendingTxn) (txID : String) : WaitResult :=
  waitForTransaction pti txID 10

/-- Result of a Python call: normal return, a raised `Exception` with a
message, a failed `assert`, or a `KeyError` on a missing dict key. -/
inductive PyResult (α : Type) where
  | ok (val : α)
  | raised (msg : String)
  | assertionError
  | keyError (key : String)
  deriving Repr, DecidableEq

/-- `MIN_BALANCE_REQUIREMENT` (lines 15-20). -/
def MIN_BALANCE_REQUIREMENT : Nat :=
  100000 + 100000 * 3

/-- Python `n.to_bytes(len, "big")` for a fitting nonnegative `n`:
the `len`-byte big-endian encoding, index `i` holding
`n / 256 ^ (len - 1 - i) % 256`. -/
def toBytesBE (len n : Nat) : List Nat :=
  (List.range len).map fun i => n / 256 ^ (len - 1 - i) % 256

/-- Python `n.to_bytes(len, "big")` including the `OverflowError` raised
when `n` does not fit in `len` bytes (modelled as `none`). -/
def to_bytes_big (n len : Nat) : Option (List Nat) :=
  if n < 256 ^ len then some (toBytesBE len n) else none

/-- The `app_args` list built by `createAmmApp` (lines 90-96):
`[decode_address(creator), tokenA.to_bytes(8,"big"), tokenB.to_bytes(8,"big"),
feeBps.to_bytes(8,"big"), minIncrement.to_bytes(8,"big")]`.
`decode_address` (an SDK primitive) is a parameter; `none` models an
`OverflowError` from one of the `to_bytes` calls. -/
def createAmmAppArgs (decode_address : String → List Nat) (creator : String)
    (tokenA tokenB feeBps minIncrement : Nat) : Option (List (List Nat)) :=
  match to_bytes_big tokenA 8, to_bytes_big tokenB 8,
        to_bytes_big feeBps 8, to_bytes_big minIncrement 8 with
  | some a, some b, some f, some m =>
    some [decode_address creator, a, b, f, m]
  | _, _, _, _ => none

/-- Big-endian value of a byte list (the number a byte list encodes). -/
def beVal (bs : List Nat) : Nat :=
  bs.foldl (fun acc b => acc * 256 + b) 0

/-- The tail of `createAmmApp` (lines 113-115): wait for confirmation with
the default timeout, then
`assert response["application-index"] is not None and response["application-index"] > 0`
and return `response["application-index"]`.  A dict access on an absent
"application-index" key raises `KeyError`; a present `None` value or a
non-positive integer fails the `assert`; exceptions from
`waitForTransaction` propagate. -/
def createAmmApp (pti : Nat → PendingTxn) (txID : String) : PyResult Int :=
  match waitForTransactionDefault pti txID with
  | WaitResult.confirmed response _ =>
    match response.applicationIndex with
    | none => PyResult.keyError "application-index"
    | some none => PyResult.assertionError
    | some (some idx) => if idx > 0 then PyResult.ok idx else PyResult.assertionError
  | WaitResult.poolError msg _ => PyResult.raised msg
  | WaitResult.timedOut msg _ => PyResult.raised msg

/-- A transaction body as built by `create_amm.py`: payment, asset
transfer, or application call (sender, app index, app args, foreign
assets).  Node-supplied suggested params carry no information the code
branches on and are elided. -/
inductive TxnBody where
  | payment (sender receiver : String) (amt : Nat)
  | assetTransfer (sender receiver : String) (index amt : Nat)
  | appCall (sender : String) (index : Nat) (app_args : List (List Nat))
      (foreign_assets : List Nat)
  deriving Repr, DecidableEq

/-- A transaction together with its (optionally assigned) group id. -/
structure Txn where
  body : TxnBody
  group : Option Nat
  deriving Repr, DecidableEq

/-- `transaction.assign_group_id(txns)`: compute one group id from the
whole list and assign it to every member.  The SDK's hash is external,
so the id computation `calcGid` is a parameter; what matters is that one
value computed from the whole list is written into each member. -/
def assign_group_id (calcGid : List TxnBody → Nat) (txns : List TxnBody) : List Txn :=
  txns.map fun t => ⟨t, some (calcGid txns)⟩

/-- A signed transaction: `txn.sign(private_key)`. -/
structure SignedTxn where
  txn : Txn
  signer : String
  deriving Repr, DecidableEq

/-- `txn.sign(private_key)`. -/
def Txn.sign (t : Txn) (private_key : String) : SignedTxn :=
  ⟨t, private_key⟩

/-- The funding amount of `setupAmmApp` (lines 140-144):
`MIN_BALANCE_REQUIREMENT + 1_000 * 3`. -/
def fundingAmount : Nat :=
  MIN_BALANCE_REQUIREMENT + 1000 * 3

/-- The atomic group built by `setupAmmApp` (lines 136-162):
`assign_group_id([fundAppTxn, setupTxn])` where `fundAppTxn` pays
`fundingAmount` from `funder` to the application address and `setupTxn`
is the `b"setup"` application call with foreign assets
`[tokenA, tokenB]`. -/
def setupAmmAppGroup (calcGid : List TxnBody → Nat)
    (get_application_address : Nat → String)
    (appID tokenA tokenB : Nat) (funder : String) : List Txn :=
  let appAddr := get_application_address appID
  let fundAppTxn := TxnBody.payment funder appAddr fundingAmount
  let setupTxn := TxnBody.appCall funder appID [strBytes "setup"] [tokenA, tokenB]
  assign_group_id calcGid [fundAppTxn, setupTxn]

/-- The list `setupAmmApp` passes to the single
`client.send_transactions([signedFundAppTxn, signedSetupTxn])`
call (lines 164-167). -/
def setupAmmAppSubmission (calcGid : List TxnBody → Nat)
    (get_application_address : Nat → String)
    (appID tokenA tokenB : Nat) (funder private_key : String) : List SignedTxn :=
  (setupAmmAppGroup calcGid get_application_address appID tokenA tokenB funder).map
    fun t => t.sign private_key

/-- The atomic group built by `supply` (lines 209-248):
`assign_group_id([feeTxn, tokenATxn, tokenBTxn, appCallTxn])`. -/
def supplyGroup (calcGid : List TxnBody → Nat)
    (get_application_address : Nat → String)
    (appID qA qB : Nat) (supplier : String)
    (tokenA tokenB poolToken : Nat) : List Txn :=
  let appAddr := get_application_address appID
  let feeTxn := TxnBody.payment supplier appAddr 2000
  let tokenATxn := TxnBody.assetTransfer supplier appAddr tokenA qA
  let tokenBTxn := TxnBody.assetTransfer supplier appAddr tokenB qB
  let appCallTxn := TxnBody.appCall supplier appID [strBytes "supply"]
    [tokenA, tokenB, poolToken]
  assign_group_id calcGid [feeTxn, tokenATxn, tokenBTxn, appCallTxn]

/-- The list `supply` passes to the single
`client.send_transactions([signedFeeTxn, signedTokenATxn, signedTokenBTxn,
signedAppCallTxn])` call (lines 249-256). -/
def supplySubmission (calcGid : List TxnBody → Nat)
    (get_application_address : Nat → String)
    (appID qA qB : Nat) (supplier private_key : String)
    (tokenA tokenB poolToken : Nat) : List SignedTxn :=
  (supplyGroup calcGid get_application_address appID qA qB supplier
      tokenA tokenB poolToken).map fun t => t.sign private_key

/-- The `value` record of one global-state entry; the code reads its
`uint` field. -/
structure TealValue where
  uint : Nat
  deriving Repr, DecidableEq

/-- One entry of `application_info(appID)["params"]["global-state"]`:
a base64-encoded `key` and a `value`. -/
structure GlobalStateEntry where
  key : String
  value : TealValue
  deriving Repr, DecidableEq

/-- The final loop of `setupAmmApp` (lines 173-175): scan the fetched
global state in order and return the `uint` value of the first entry
whose base64-decoded key equals `b"pool_token_key"`; falling off the end
of the function returns Python `None`, modelled as `none`.  Base64
decoding (`b64decode`) is an external primitive taken as a parameter. -/
def poolTokenScan (b64decode : String → List Nat)
    (glob_state : List GlobalStateEntry) : Option Nat :=
  match glob_state with
  | [] => none
  | e :: rest =>
    if b64decode e.key = strBytes "pool_token_key" then
      some e.value.uint
    else
      poolTokenScan b64decode rest

/-! ## Lemmas about the confirmation-wait loop -/

/-- If every poll in the remaining budget reports confirmed-round 0 and an
empty pool-error, the loop exhausts its fuel, making one poll per
iteration, and times out. -/
theorem waitLoop_timedOut (pti : Nat → PendingTxn) (txID : String) (t : Int)
    (fuel : Nat) :
    ∀ polls,
      (∀ i, i < fuel → (pti (polls + i)).confirmedRound.getD 0 = 0 ∧
        (pti (polls + i)).poolError = "") →
      waitLoop pti txID t fuel polls =
        WaitResult.timedOut (timeoutMsg txID t) (polls + fuel) := by
  induction fuel with
  | zero =>
    intro polls _
    simp [waitLoop]
  | succ fuel ih =>
    intro polls h
    have h0 := h 0 (Nat.succ_pos fuel)
    simp only [Nat.add_zero] at h0
    have hrec := ih (polls + 1) (fun i hi => by
      have hh := h (i + 1) (Nat.succ_lt_succ hi)
      have heq : polls + (i + 1) = polls + 1 + i := by omega
      rw [heq] at hh
      exact hh)
    rw [waitLoop]
    simp only [h0.1, h0.2]
    simp only [gt_iff_lt, Nat.lt_irrefl, if_false, ne_eq, not_true, if_neg,
      not_false_iff]
    rw [hrec]
    congr 1
    omega

/-- If the first `k` polls report confirmed-round 0 with empty pool-error
and poll `k` (0-based) reports a positive confirmed-round, the loop
returns that response after `k + 1` polls, provided the budget allows
reaching it. -/
theorem waitLoop_confirmed (pti : Nat → PendingTxn) (txID : String) (t : Int)
    (k : Nat) :
    ∀ fuel polls, k < fuel →
      (∀ i, i < k → (pti (polls + i)).confirmedRound.getD 0 = 0 ∧
        (pti (polls + i)).poolError = "") →
      (pti (polls + k)).confirmedRound.getD 0 > 0 →
      waitLoop pti txID t fuel polls =
        WaitResult.confirmed (pti (polls + k)) (polls + k + 1) := by
  induction k with
  | zero =>
    intro fuel polls hk _ hc
    obtain ⟨f, rfl⟩ : ∃ f, fuel = f + 1 := ⟨fuel - 1, by omega⟩
    simp only [Nat.add_zero] at hc ⊢
    rw [waitLoop]
    simp [hc]
  | succ k ih =>
    intro fuel polls hk h hc
    obtain ⟨f, rfl⟩ : ∃ f, fuel = f + 1 := ⟨fuel - 1, by omega⟩
    have h0 := h 0 (Nat.succ_pos k)
    simp only [Nat.add_zero] at h0
    have hshift : polls + 1 + k = polls + (k + 1) := by omega
    have hrec := ih f (polls + 1) (by omega)
      (fun i hi => by
        have hh := h (i + 1) (Nat.succ_lt_succ hi)
        have heq : polls + (i + 1) = polls + 1 + i := by omega
        rw [heq] at hh
        exact hh)
      (by rw [hshift]; exact hc)
    rw [waitLoop]
    simp only [h0.1, h0.2]
    rw [if_neg (by omega), if_neg (by simp), hrec, hshift]

/-! ## Claim theorems: the confirmation-wait loop -/

/-- C1: for every client whose `pending_transaction_info` responses always
have confirmed-round 0 and an empty pool-error, `waitForTransaction` with
round budget `t` makes exactly `t` polls and then fails with the timeout
error; with the default budget it makes exactly 10 polls; and the timeout
message names the transaction ID and the round count. -/
theorem waitForTransaction_timeout_exhausts_budget (pti : Nat → PendingTxn)
    (txID : String) (t : Nat)
    (h : ∀ i, (pti i).confirmedRound.getD 0 = 0 ∧ (pti i).poolError = "") :
    waitForTransaction pti txID (Int.ofNat t) =
      WaitResult.timedOut (timeoutMsg txID (Int.ofNat t)) t ∧
    waitForTransactionDefault pti txID =
      WaitResult.timedOut (timeoutMsg txID 10) 10 ∧
    timeoutMsg txID (Int.ofNat t) =
      "Transaction " ++ txID ++ " not confirmed after " ++
        toString (Int.ofNat t) ++ " rounds" := by
  refine ⟨?_, ?_, rfl⟩
  · have hw := waitLoop_timedOut pti txID (Int.ofNat t) t 0 (fun i _ => h (0 + i))
    simpa [waitForTransaction] using hw
  · have hw := waitLoop_timedOut pti txID 10 10 0 (fun i _ => h (0 + i))
    simpa [waitForTransactionDefault, waitForTransaction] using hw

/-- Witness for C1 at a concrete never-confirming client and budget 3. -/
theorem waitForTransaction_timeout_exhausts_budget_witness :
    waitForTransaction (fun _ => ⟨some 0, "", none⟩) "TX" (Int.ofNat 3) =
      WaitResult.timedOut (timeoutMsg "TX" (Int.ofNat 3)) 3 :=
  (waitForTransaction_timeout_exhausts_budget (fun _ => ⟨some 0, "", none⟩)
    "TX" 3 (fun _ => ⟨rfl, rfl⟩)).1

/-- C2: if the first `pending_transaction_info` response has
confirmed-round 0 and a non-empty pool-error, `waitForTransaction` (with a
positive round budget) fails after exactly one poll with the pool error
carrying that text. -/
theorem waitForTransaction_pool_error_first_poll (pti : Nat → PendingTxn)
    (txID : String) (t : Int) (ht : 1 ≤ t)
    (hc : (pti 0).confirmedRound.getD 0 = 0)
    (hp : (pti 0).poolError ≠ "") :
    waitForTransaction pti txID t =
      WaitResult.poolError (poolErrorMsg (pti 0).poolError) 1 := by
  obtain ⟨f, hf⟩ : ∃ f, t.toNat = f + 1 := ⟨t.toNat - 1, by omega⟩
  rw [waitForTransaction, hf, waitLoop]
  simp [hc, hp]

/-- Witness for C2 at a concrete client rejected on the first poll. -/
theorem waitForTransaction_pool_error_first_poll_witness :
    waitForTransaction (fun _ => ⟨some 0, "overspend", none⟩) "TX" 10 =
      WaitResult.poolError (poolErrorMsg "overspend") 1 :=
  waitForTransaction_pool_error_first_poll (fun _ => ⟨some 0, "overspend", none⟩)
    "TX" 10 (by decide) rfl (by decide)

/-- C3: if polls 1..N-1 report confirmed-round 0 with empty pool-error and
poll N (1 ≤ N ≤ budget) reports a positive confirmed-round,
`waitForTransaction` returns that response successfully having made
exactly N polls (so no more than N). -/
theorem waitForTransaction_confirmed_at_poll (pti : Nat → PendingTxn)
    (txID : String) (t : Int) (N : Nat) (h1 : 1 ≤ N) (hN : (N : Int) ≤ t)
    (hbefore : ∀ i, i < N - 1 → (pti i).confirmedRound.getD 0 = 0 ∧
      (pti i).poolError = "")
    (hconf : (pti (N - 1)).confirmedRound.getD 0 > 0) :
    waitForTransaction pti txID t = WaitResult.confirmed (pti (N - 1)) N := by
  have hk : N - 1 < t.toNat := by omega
  have hw := waitLoop_confirmed pti txID t (N - 1) t.toNat 0 hk
    (fun i hi => by simpa using hbefore i hi) (by simpa using hconf)
  rw [waitForTransaction, hw]
  simp only [Nat.zero_add]
  congr 1
  omega

/-- Witness for C3: a client that confirms on the second poll, budget 5. -/
theorem waitForTransaction_confirmed_at_poll_witness :
    waitForTransaction
      (fun i => if i = 0 then ⟨some 0, "", none⟩ else ⟨some 9, "", none⟩)
      "TX" 5 =
      WaitResult.confirmed ⟨some 9, "", none⟩ 2 :=
  waitForTransaction_confirmed_at_poll
    (fun i => if i = 0 then ⟨some 0, "", none⟩ else ⟨some 9, "", none⟩)
    "TX" 5 2 (by decide) (by decide)
    (fun i hi => by
      have h0 : i = 0 := by omega
      subst h0
      exact ⟨rfl, rfl⟩)
    (by decide)

/-- C10: for every round budget ≤ 0, `waitForTransaction` makes zero polls
and raises the timeout error immediately, whatever the client would have
answered. -/
theorem waitForTransaction_nonpositive_timeout (pti : Nat → PendingTxn)
    (txID : String) (t : Int) (ht : t ≤ 0) :
    waitForTransaction pti txID t = WaitResult.timedOut (timeoutMsg txID t) 0 := by
  have h0 : t.toNat = 0 := by omega
  rw [waitForTransaction, h0, waitLoop]

/-- Witness for C10: budget -2 and a client whose transaction is already
confirmed; the call still times out with zero polls. -/
theorem waitForTransaction_nonpositive_timeout_witness :
    waitForTransaction (fun _ => ⟨some 5, "", some (some 1)⟩) "TX" (-2) =
      WaitResult.timedOut (timeoutMsg "TX" (-2)) 0 :=
  waitForTransaction_nonpositive_timeout (fun _ => ⟨some 5, "", some (some 1)⟩)
    "TX" (-2) (by decide)

/-! ## Claim theorems: createAmmApp -/

/-- C4 counterexample: a node whose confirmed result has NO
"application-index" key at all makes `createAmmApp` fail with a `KeyError`
from the dict access `response["application-index"]`, not with an
assertion failure, contradicting the claim that an absent application
index yields an assertion failure. -/
theorem createAmmApp_absent_index_keyError :
    createAmmApp (fun _ => ⟨some 1, "", none⟩) "TX" =
      PyResult.keyError "application-index" ∧
    (PyResult.keyError "application-index" : PyResult Int) ≠
      PyResult.assertionError := by
  constructor
  · rfl
  · decide

/-- C4 (amended): when the submitted transaction confirms on the first
poll, `createAmmApp` returns the application-index of the confirmed result
when it is a positive integer; it fails with an assertion failure when the
index is a non-positive integer or a `None` value; and when the
"application-index" key is absent it fails with a `KeyError` (a
key-lookup failure), not an assertion failure. -/
theorem createAmmApp_application_index (pti : Nat → PendingTxn)
    (txID : String) (hc : (pti 0).confirmedRound.getD 0 > 0) :
    (∀ idx : Int, (pti 0).applicationIndex = some (some idx) → 0 < idx →
      createAmmApp pti txID = PyResult.ok idx) ∧
    (∀ idx : Int, (pti 0).applicationIndex = some (some idx) → idx ≤ 0 →
      createAmmApp pti txID = PyResult.assertionError) ∧
    ((pti 0).applicationIndex = some none →
      createAmmApp pti txID = PyResult.assertionError) ∧
    ((pti 0).applicationIndex = none →
      createAmmApp pti txID = PyResult.keyError "application-index") := by
  have hw : waitForTransactionDefault pti txID =
      WaitResult.confirmed (pti 0) 1 := by
    have h := waitLoop_confirmed pti txID 10 0 10 0 (by omega)
      (fun i hi => absurd hi (Nat.not_lt_zero i)) (by simpa using hc)
    simpa [waitForTransactionDefault, waitForTransaction] using h
  refine ⟨?_, ?_, ?_, ?_⟩
  · intro idx hidx hpos
    rw [createAmmApp, hw]
    simp [hidx, hpos]
  · intro idx hidx hnp
    rw [createAmmApp, hw]
    simp [hidx]
    omega
  · intro hidx
    rw [createAmmApp, hw]
    simp [hidx]
  · intro hidx
    rw [createAmmApp, hw]
    simp [hidx]

/-- Witness for the amended C4: a node that confirms immediately and
reports application-index 7; `createAmmApp` returns 7. -/
theorem createAmmApp_application_index_witness :
    createAmmApp (fun _ => ⟨some 1, "", some (some 7)⟩) "TX" =
      PyResult.ok 7 :=
  (createAmmApp_application_index (fun _ => ⟨some 1, "", some (some 7)⟩)
    "TX" (by decide)).1 7 rfl (by decide)

/-! ## Lemmas about big-endian byte encoding -/

/-- Folding the big-endian accumulator from `acc` instead of 0. -/
theorem beVal_foldl (bs : List Nat) :
    ∀ acc, bs.foldl (fun a d => a * 256 + d) acc =
      acc * 256 ^ bs.length + beVal bs := by
  induction bs with
  | nil =>
    intro acc
    simp [beVal]
  | cons b bs ih =>
    intro acc
    have hb : beVal (b :: bs) = b * 256 ^ bs.length + beVal bs := by
      show List.foldl (fun a d => a * 256 + d) (0 * 256 + b) bs = _
      rw [ih (0 * 256 + b)]
      ring
    simp only [List.foldl_cons, List.length_cons]
    rw [ih (acc * 256 + b), hb]
    ring

/-- `beVal` of a cons. -/
theorem beVal_cons (b : Nat) (bs : List Nat) :
    beVal (b :: bs) = b * 256 ^ bs.length + beVal bs := by
  show List.foldl (fun a d => a * 256 + d) (0 * 256 + b) bs = _
  rw [beVal_foldl bs (0 * 256 + b)]
  ring

/-- The big-endian encoding of length `len + 1` peels off its top byte. -/
theorem toBytesBE_succ (len n : Nat) :
    toBytesBE (len + 1) n = (n / 256 ^ len % 256) :: toBytesBE len n := by
  simp only [toBytesBE, List.range_succ_eq_map, List.map_cons, List.map_map]
  congr 1
  norm_num
  intro a _
  have heq : len - (a + 1) = len - 1 - a := by omega
  rw [heq]

/-- The encoding always has the requested length. -/
theorem toBytesBE_length (len n : Nat) : (toBytesBE len n).length = len := by
  simp [toBytesBE]

/-- Decoding the big-endian encoding recovers the value modulo `256^len`. -/
theorem beVal_toBytesBE (len n : Nat) :
    beVal (toBytesBE len n) = n % 256 ^ len := by
  induction len with
  | zero =>
    simp [toBytesBE, beVal, Nat.mod_one]
  | succ len ih =>
    rw [toBytesBE_succ, beVal_cons, ih, toBytesBE_length, pow_succ, Nat.mod_mul]
    ring

/-- Every entry of the encoding is a byte. -/
theorem toBytesBE_lt (len n : Nat) : ∀ b ∈ toBytesBE len n, b < 256 := by
  intro b hb
  simp only [toBytesBE, List.mem_map, List.mem_range] at hb
  obtain ⟨i, _, rfl⟩ := hb
  exact Nat.mod_lt _ (by norm_num)

/-- C5: for every creator and token/fee/increment values that fit in 8
bytes, the app-args list built by `createAmmApp` has exactly five entries
in order: the raw decoded creator address bytes, then 8-byte big-endian
encodings of tokenA, tokenB, feeBps and minIncrement (each a list of 8
bytes < 256 whose big-endian value is the encoded integer). -/
theorem createAmmAppArgs_five_args (decode_address : String → List Nat)
    (creator : String) (tokenA tokenB feeBps minIncrement : Nat)
    (hA : tokenA < 256 ^ 8) (hB : tokenB < 256 ^ 8)
    (hF : feeBps < 256 ^ 8) (hM : minIncrement < 256 ^ 8) :
    ∃ a b f m,
      createAmmAppArgs decode_address creator tokenA tokenB feeBps minIncrement =
        some [decode_address creator, a, b, f, m] ∧
      a.length = 8 ∧ b.length = 8 ∧ f.length = 8 ∧ m.length = 8 ∧
      beVal a = tokenA ∧ beVal b = tokenB ∧ beVal f = feeBps ∧
      beVal m = minIncrement ∧
      (∀ x ∈ a, x < 256) ∧ (∀ x ∈ b, x < 256) ∧ (∀ x ∈ f, x < 256) ∧
      (∀ x ∈ m, x < 256) := by
  refine ⟨toBytesBE 8 tokenA, toBytesBE 8 tokenB, toBytesBE 8 feeBps,
    toBytesBE 8 minIncrement, ?_, toBytesBE_length 8 tokenA,
    toBytesBE_length 8 tokenB, toBytesBE_length 8 feeBps,
    toBytesBE_length 8 minIncrement, ?_, ?_, ?_, ?_,
    toBytesBE_lt 8 tokenA, toBytesBE_lt 8 tokenB, toBytesBE_lt 8 feeBps,
    toBytesBE_lt 8 minIncrement⟩
  · unfold createAmmAppArgs to_bytes_big
    rw [if_pos hA, if_pos hB, if_pos hF, if_pos hM]
  · rw [beVal_toBytesBE]
    exact Nat.mod_eq_of_lt hA
  · rw [beVal_toBytesBE]
    exact Nat.mod_eq_of_lt hB
  · rw [beVal_toBytesBE]
    exact Nat.mod_eq_of_lt hF
  · rw [beVal_toBytesBE]
    exact Nat.mod_eq_of_lt hM

/-- Witness for C5 at concrete inputs (token ids 1 and 2, fee 30,
increment 1000). -/
theorem createAmmAppArgs_five_args_witness :
    ∃ a b f m,
      createAmmAppArgs (fun _ => List.replicate 32 7) "CREATOR" 1 2 30 1000 =
        some [(fun _ : String => List.replicate 32 7) "CREATOR", a, b, f, m] ∧
      a.length = 8 ∧ b.length = 8 ∧ f.length = 8 ∧ m.length = 8 ∧
      beVal a = 1 ∧ beVal b = 2 ∧ beVal f = 30 ∧ beVal m = 1000 ∧
      (∀ x ∈ a, x < 256) ∧ (∀ x ∈ b, x < 256) ∧ (∀ x ∈ f, x < 256) ∧
      (∀ x ∈ m, x < 256) :=
  createAmmAppArgs_five_args (fun _ => List.replicate 32 7) "CREATOR"
    1 2 30 1000 (by norm_num) (by norm_num) (by norm_num) (by norm_num)

/-! ## Claim theorems: atomic groups -/

/-- C6: the atomic group built by `setupAmmApp` is exactly a funding
payment to the application address followed by the "setup" application
call, both carrying the same group identifier, and the funding amount is
`MIN_BALANCE_REQUIREMENT + 3 * 1000 = 403000`. -/
theorem setupAmmApp_group_two_txns (calcGid : List TxnBody → Nat)
    (get_application_address : Nat → String)
    (appID tokenA tokenB : Nat) (funder : String) :
    ∃ gid,
      setupAmmAppGroup calcGid get_application_address appID tokenA tokenB funder =
        [⟨TxnBody.payment funder (get_application_address appID)
            (MIN_BALANCE_REQUIREMENT + 3 * 1000), some gid⟩,
         ⟨TxnBody.appCall funder appID [strBytes "setup"] [tokenA, tokenB],
            some gid⟩] ∧
      MIN_BALANCE_REQUIREMENT + 3 * 1000 = 403000 := by
  refine ⟨calcGid [TxnBody.payment funder (get_application_address appID)
      fundingAmount,
    TxnBody.appCall funder appID [strBytes "setup"] [tokenA, tokenB]], ?_, by
      norm_num [MIN_BALANCE_REQUIREMENT]⟩
  simp [setupAmmAppGroup, assign_group_id, fundingAmount, MIN_BALANCE_REQUIREMENT]

/-- C7: the list `supply` submits in its single `send_transactions` call
is exactly four signed transactions in order — fee payment, token A
transfer, token B transfer, "supply" application call referencing
tokenA, tokenB and poolToken — all carrying the same group identifier. -/
theorem supply_group_four_txns (calcGid : List TxnBody → Nat)
    (get_application_address : Nat → String)
    (appID qA qB : Nat) (supplier private_key : String)
    (tokenA tokenB poolToken : Nat) :
    ∃ gid,
      supplyGroup calcGid get_application_address appID qA qB supplier
          tokenA tokenB poolToken =
        [⟨TxnBody.payment supplier (get_application_address appID) 2000, some gid⟩,
         ⟨TxnBody.assetTransfer supplier (get_application_address appID)
            tokenA qA, some gid⟩,
         ⟨TxnBody.assetTransfer supplier (get_application_address appID)
            tokenB qB, some gid⟩,
         ⟨TxnBody.appCall supplier appID [strBytes "supply"]
            [tokenA, tokenB, poolToken], some gid⟩] ∧
      supplySubmission calcGid get_application_address appID qA qB supplier
          private_key tokenA tokenB poolToken =
        [⟨⟨TxnBody.payment supplier (get_application_address appID) 2000,
            some gid⟩, private_key⟩,
         ⟨⟨TxnBody.assetTransfer supplier (get_application_address appID)
            tokenA qA, some gid⟩, private_key⟩,
         ⟨⟨TxnBody.assetTransfer supplier (get_application_address appID)
            tokenB qB, some gid⟩, private_key⟩,
         ⟨⟨TxnBody.appCall supplier appID [strBytes "supply"]
            [tokenA, tokenB, poolToken], some gid⟩, private_key⟩] := by
  refine ⟨calcGid [TxnBody.payment supplier (get_application_address appID) 2000,
    TxnBody.assetTransfer supplier (get_application_address appID) tokenA qA,
    TxnBody.assetTransfer supplier (get_application_address appID) tokenB qB,
    TxnBody.appCall supplier appID [strBytes "supply"]
      [tokenA, tokenB, poolToken]], ?_, ?_⟩
  · simp [supplyGroup, assign_group_id]
  · simp [supplySubmission, supplyGroup, assign_group_id, Txn.sign]

/-! ## Claim theorems: the pool-token global-state scan -/

/-- The scan of `setupAmmApp` returns exactly the mapped first match. -/
theorem poolTokenScan_eq_find (b64decode : String → List Nat)
    (gs : List GlobalStateEntry) :
    poolTokenScan b64decode gs =
      (gs.find? fun e =>
        decide (b64decode e.key = strBytes "pool_token_key")).map
        fun e => e.value.uint := by
  induction gs with
  | nil => simp [poolTokenScan]
  | cons e rest ih =>
    by_cases h : b64decode e.key = strBytes "pool_token_key"
    · simp [poolTokenScan, List.find?_cons, h]
    · simp [poolTokenScan, List.find?_cons, h, ih]

/-- C8: after setup confirms, `setupAmmApp` returns the `uint` value of
the first global-state entry whose base64-decoded key equals
`b"pool_token_key"`. -/
theorem setupAmmApp_returns_first_pool_token (b64decode : String → List Nat)
    (gs : List GlobalStateEntry) (e : GlobalStateEntry)
    (h : gs.find? (fun x =>
      decide (b64decode x.key = strBytes "pool_token_key")) = some e) :
    poolTokenScan b64decode gs = some e.value.uint := by
  rw [poolTokenScan_eq_find, h]
  rfl

/-- Witness for C8: a two-entry state whose second entry holds the pool
token id 77 under the matching key. -/
theorem setupAmmApp_returns_first_pool_token_witness :
    poolTokenScan strBytes [⟨"other", ⟨5⟩⟩, ⟨"pool_token_key", ⟨77⟩⟩] =
      some 77 :=
  setupAmmApp_returns_first_pool_token strBytes
    [⟨"other", ⟨5⟩⟩, ⟨"pool_token_key", ⟨77⟩⟩] ⟨"pool_token_key", ⟨77⟩⟩
    (by decide)

/-- C9: if no global-state entry's base64-decoded key equals
`b"pool_token_key"`, `setupAmmApp` falls off the end of its scan and
returns Python `None` (modelled `none`) instead of raising, despite its
declared `int` result. -/
theorem setupAmmApp_no_key_returns_none (b64decode : String → List Nat)
    (gs : List GlobalStateEntry)
    (h : ∀ e ∈ gs, b64decode e.key ≠ strBytes "pool_token_key") :
    poolTokenScan b64decode gs = none := by
  rw [poolTokenScan_eq_find]
  rw [List.find?_eq_none.mpr (fun x hx => by simpa using h x hx)]
  rfl

/-- Witness for C9: a one-entry state whose key does not decode to the
pool-token key. -/
theorem setupAmmApp_no_key_returns_none_witness :
    poolTokenScan strBytes [⟨"other", ⟨5⟩⟩] = none :=
  setupAmmApp_no_key_returns_none strBytes [⟨"other", ⟨5⟩⟩]
    (fun e he => by
      simp only [List.mem_singleton] at he
      subst he
      decide)
